import Mathlib

/-!
Verification of the stable-plugin crate (src/lib.rs): a rustc plugin that
drives a cargo build, intercepts compilation after type analysis and prints
the name and type of every local item through StableMIR.

The probe text handled by `modify_cargo` is modelled as a `List Char`
(the decoded stdout of `rustc -vV`), so the line scanner is structurally
recursive.  A fatal panic (`expect` / `panic!`) is modelled as `none`.
-/

/-- Rust `stdout.split("\n")`: split a character sequence at each newline,
keeping empty pieces, exactly as `str::split` does. -/
def splitNl : List Char → List (List Char)
  | [] => [[]]
  | c :: cs =>
    if c = '\n' then [] :: splitNl cs
    else
      match splitNl cs with
      | [] => [[c]]
      | l :: ls => (c :: l) :: ls

/-- Rust `part.starts_with(key)` on character sequences. -/
def startsWith : List Char → List Char → Bool
  | [], _ => true
  | _ :: _, [] => false
  | k :: ks, c :: cs => k = c && startsWith ks cs

/-- The key scanned for in the `rustc -vV` output: `"host: "`. -/
def hostKey : List Char := ("host: ").data

/-- One iteration of the loop in `modify_cargo` (src/lib.rs lines 62-66):
if the line starts with `"host: "`, replace the accumulated target by the
remainder of the line (`part.chars().skip("host: ".len()).collect()`),
otherwise keep the accumulator. -/
def updateTarget (target : List Char) (part : List Char) : List Char :=
  if startsWith hostKey part then part.drop hostKey.length else target

/-- The whole capture loop of `modify_cargo`: fold `updateTarget` over the
lines, starting from the empty string (`String::from("")`). -/
def parseTargetLines (lines : List (List Char)) : List Char :=
  lines.foldl updateTarget []

/-- The captured target triple for a given probe stdout. -/
def parseTarget (stdout : List Char) : List Char :=
  parseTargetLines (splitNl stdout)

/-- Lines 61-69 of src/lib.rs: run the capture loop, and panic
(`panic!("Bad output")`, modelled as `none`) when the captured triple has
length zero. -/
def probeTarget (stdout : List Char) : Option (List Char) :=
  if (parseTarget stdout).length = 0 then none else some (parseTarget stdout)

/-- The platform probe including UTF-8 decoding: the argument is the result
of `String::from_utf8(output.stdout)` (`none` when the bytes are not valid
UTF-8, in which case `.expect("Cannot parse stdout")` panics). -/
def probeRaw (decoded : Option (List Char)) : Option (List Char) :=
  match decoded with
  | none => none
  | some stdout => probeTarget stdout

/-- `modify_cargo` (src/lib.rs lines 53-74): probe the host triple, then
append to the cargo command, in order, `-Zbuild-std`, `--target=<triple>`,
and the user's forwarded cargo arguments.  `none` models the panic paths. -/
def modify_cargo (decodedStdout : Option (List Char)) (cargo : List String)
    (cargo_args : List String) : Option (List String) :=
  match probeRaw decodedStdout with
  | none => none
  | some target =>
    some (cargo ++ ["-Zbuild-std", "--target=" ++ String.mk target] ++ cargo_args)

/-- `rustc_driver::Compilation`. -/
inductive Compilation where
  | Continue : Compilation
  | Stop : Compilation
deriving DecidableEq

/-- `StablePluginArgs`: the clap-parsed plugin arguments, holding the cargo
arguments forwarded after `--`. -/
structure StablePluginArgs where
  cargo_args : List String
deriving DecidableEq

/-- One StableMIR item: its `Debug` rendering (`{:?}`) and the `Display`
rendering of its type (`item.ty()`). -/
structure Item where
  debugForm : String
  tyDisplay : String
deriving DecidableEq

/-- The typed context handed to the callback; for this plugin all that
matters is the sequence of local items the StableMIR session enumerates
(`stable_mir::all_local_items()`). -/
structure TyCtxt where
  localItems : List Item
deriving DecidableEq

/-- The line printed for one item (src/lib.rs line 133):
`format!("There is an item \"\x7b:?\x7d\" of type \"\x7b\x7d\"", item, item.ty())`. -/
def itemLine (item : Item) : String :=
  "There is an item \"" ++ item.debugForm ++ "\" of type \"" ++ item.tyDisplay ++ "\""

/-- `print_all_items` (src/lib.rs lines 131-137): print one line per local
item and return `Compilation::Continue`.  The first component is the
sequence of printed lines, the second the returned decision. -/
def print_all_items (tcx : TyCtxt) (_args : StablePluginArgs) :
    List String × Compilation :=
  (tcx.localItems.map itemLine, Compilation.Continue)

/-- `StablePluginCallbacks`: the plugin arguments plus the recorded result
field, `Option<rustc_driver::Compilation>`. -/
structure StablePluginCallbacks where
  args : StablePluginArgs
  result : Option Compilation
deriving DecidableEq

/-- Lines 117-121 of src/lib.rs:
`self.result.as_ref().is_some_and(|val| matches!(val, Compilation::Continue))`. -/
def is_some_and_continue : Option Compilation → Bool
  | some Compilation.Continue => true
  | _ => false

/-- The decision computed at the end of `after_analysis` (src/lib.rs lines
117-125) from the recorded result field. -/
def after_analysis_check (result : Option Compilation) : Compilation :=
  if is_some_and_continue result then Compilation.Continue else Compilation.Stop

/-- `after_analysis` (src/lib.rs lines 103-127): run `print_all_items`
inside the StableMIR session, record its decision in the result field, and
return the printed lines together with the decision derived from the
recorded field. -/
def after_analysis (cb : StablePluginCallbacks) (tcx : TyCtxt) :
    StablePluginCallbacks × List String × Compilation :=
  let enumOut := print_all_items tcx cb.args
  let cb2 : StablePluginCallbacks := { cb with result := some enumOut.2 }
  (cb2, enumOut.1, after_analysis_check cb2.result)

/-- The state handed to `rustc_driver::RunCompiler::new` by `run`. -/
structure DriverInvocation where
  compiler_args : List String
  callbacks : StablePluginCallbacks
deriving DecidableEq

/-- `run` (src/lib.rs lines 78-91): build the callbacks with `result: None`,
push `-Zalways-encode-mir` onto the compiler arguments, and construct the
driver invocation from both. -/
def run (compiler_args : List String) (plugin_args : StablePluginArgs) :
    DriverInvocation :=
  { compiler_args := compiler_args ++ ["-Zalways-encode-mir"],
    callbacks := { args := plugin_args, result := none } }

/-- Folding the capture loop over lines none of which starts with
`"host: "` leaves the accumulator unchanged. -/
theorem foldl_updateTarget_no_match (l : List (List Char)) (a : List Char)
    (h : ∀ p ∈ l, startsWith hostKey p = false) :
    l.foldl updateTarget a = a := by
  induction l generalizing a with
  | nil => rfl
  | cons x xs ih =>
    have hx : startsWith hostKey x = false := h x (List.mem_cons_self x xs)
    have hstep : updateTarget a x = a := by simp [updateTarget, hx]
    rw [List.foldl_cons, hstep]
    exact ih a fun p hp => h p (List.mem_cons_of_mem x hp)

/-- Folding the capture loop over a list whose last `"host: "`-prefixed
line is `m` captures exactly the remainder of `m`. -/
theorem foldl_updateTarget_append_match (pre post : List (List Char))
    (m a : List Char) (hm : startsWith hostKey m = true)
    (hpost : ∀ p ∈ post, startsWith hostKey p = false) :
    (pre ++ m :: post).foldl updateTarget a = m.drop hostKey.length := by
  rw [List.foldl_append, List.foldl_cons]
  have hstep : updateTarget (pre.foldl updateTarget a) m = m.drop hostKey.length := by
    simp [updateTarget, hm]
  rw [hstep]
  exact foldl_updateTarget_no_match post _ hpost

/-- The probe never produces the empty triple: either it panics or it
returns a non-empty capture. -/
theorem probeTarget_ne_some_nil (s : List Char) : probeTarget s ≠ some [] := by
  unfold probeTarget
  by_cases h : (parseTarget s).length = 0
  · simp [h]
  · simp only [h, if_false]
    intro hc
    rw [Option.some.injEq] at hc
    exact h (by rw [hc]; rfl)

/-- C1: the decision returned at the end of `after_analysis` is `Continue`
exactly when the recorded result field holds `Continue`; a recorded `Stop`
or an unrecorded result (`None`) both yield `Stop`, and the decision the
callback returns is always this check applied to its recorded field. -/
theorem after_analysis_check_continue_iff :
    (∀ r : Option Compilation,
        after_analysis_check r = Compilation.Continue ↔
          r = some Compilation.Continue) ∧
    after_analysis_check none = Compilation.Stop ∧
    after_analysis_check (some Compilation.Stop) = Compilation.Stop ∧
    ∀ (cb : StablePluginCallbacks) (tcx : TyCtxt),
      (after_analysis cb tcx).2.2 =
        after_analysis_check (after_analysis cb tcx).1.result := by
  refine ⟨?_, rfl, rfl, fun cb tcx => rfl⟩
  intro r
  rcases r with _ | c
  · simp [after_analysis_check, is_some_and_continue]
  · rcases c <;> simp [after_analysis_check, is_some_and_continue]

/-- C2: when the probe succeeds with triple `t`, the assembled cargo
command is the original command followed exactly, in order, by
`-Zbuild-std`, `--target=t`, and the forwarded arguments, verbatim and
last. -/
theorem modify_cargo_flags_exact (decodedStdout : Option (List Char))
    (cargo cargo_args : List String) (t : List Char)
    (h : probeRaw decodedStdout = some t) :
    modify_cargo decodedStdout cargo cargo_args =
      some (cargo ++ ["-Zbuild-std", "--target=" ++ String.mk t] ++ cargo_args) := by
  unfold modify_cargo
  rw [h]

/-- Witness for C2 at a concrete probe output and forwarded arguments. -/
theorem modify_cargo_flags_exact_witness :
    modify_cargo (some (("host: x86_64-unknown-linux-gnu").data)) []
        ["--feature", "foo"] =
      some ["-Zbuild-std", "--target=x86_64-unknown-linux-gnu",
            "--feature", "foo"] := by
  have h : probeRaw (some (("host: x86_64-unknown-linux-gnu").data)) =
      some (("x86_64-unknown-linux-gnu").data) := by decide
  simpa using modify_cargo_flags_exact _ [] ["--feature", "foo"] _ h

/-- Counterexample to C3 as stated: the output `"host: a\nhost: b"`
contains the line `"host: a"` prefixed with `"host: "`, yet the probe does
not return its remainder `"a"`: it returns `"b"`, the remainder of the
later matching line. -/
theorem probeTarget_earlier_line_ignored :
    (("host: a").data ∈ splitNl (("host: a\nhost: b").data)) ∧
    startsWith hostKey (("host: a").data) = true ∧
    probeTarget (("host: a\nhost: b").data) = some (("b").data) ∧
    probeTarget (("host: a\nhost: b").data) ≠
      some ((("host: a").data).drop hostKey.length) := by
  decide

/-- C3 amended: for every probe output whose last `"host: "`-prefixed line
has a non-empty remainder, the probe returns exactly that remainder; in
particular, output consisting of the line `host: x86_64-unknown-linux-gnu`
yields exactly `x86_64-unknown-linux-gnu` (see the witness). -/
theorem probeTarget_last_nonempty_remainder (stdout : List Char)
    (pre post : List (List Char)) (m : List Char)
    (hsplit : splitNl stdout = pre ++ m :: post)
    (hm : startsWith hostKey m = true)
    (hpost : ∀ p ∈ post, startsWith hostKey p = false)
    (hne : m.drop hostKey.length ≠ []) :
    probeTarget stdout = some (m.drop hostKey.length) := by
  have hp : parseTarget stdout = m.drop hostKey.length := by
    unfold parseTarget parseTargetLines
    rw [hsplit]
    exact foldl_updateTarget_append_match pre post m [] hm hpost
  unfold probeTarget
  rw [hp, if_neg]
  intro hlen
  exact hne (List.length_eq_zero.mp hlen)

/-- Witness for C3 (amended) at the spec's concrete probe output. -/
theorem probeTarget_last_nonempty_remainder_witness :
    probeTarget (("host: x86_64-unknown-linux-gnu").data) =
      some (("x86_64-unknown-linux-gnu").data) := by
  have h := probeTarget_last_nonempty_remainder
    (("host: x86_64-unknown-linux-gnu").data) []
    [] (("host: x86_64-unknown-linux-gnu").data)
    (by decide) (by decide) (by simp) (by decide)
  simpa using h

/-- C4: the probe panics (returns `none`) on any decoded output with no
`"host: "`-prefixed line, panics on bytes that are not valid UTF-8
(decoded = `none`), and never returns an empty triple. -/
theorem probe_fatal_cases :
    (∀ stdout : List Char,
        (∀ p ∈ splitNl stdout, startsWith hostKey p = false) →
          probeRaw (some stdout) = none) ∧
    probeRaw none = none ∧
    (∀ decoded : Option (List Char), probeRaw decoded ≠ some []) := by
  refine ⟨?_, rfl, ?_⟩
  · intro stdout h
    show probeTarget stdout = none
    have hp : parseTarget stdout = [] := foldl_updateTarget_no_match _ [] h
    simp [probeTarget, hp]
  · intro decoded
    rcases decoded with _ | s
    · simp [probeRaw]
    · exact probeTarget_ne_some_nil s

/-- Witness for C4 at a concrete output without any `"host: "` line. -/
theorem probe_fatal_cases_witness :
    probeRaw (some (("release: 1.76.0\ncommit-hash: unknown").data)) = none :=
  probe_fatal_cases.1 (("release: 1.76.0\ncommit-hash: unknown").data) (by decide)

/-- C5: the enumeration emits exactly one line per local item, and the
line for the i-th item is exactly
`There is an item "<item-debug-form>" of type "<type-display-form>"`. -/
theorem print_all_items_lines (tcx : TyCtxt) (args : StablePluginArgs) :
    (print_all_items tcx args).1.length = tcx.localItems.length ∧
    ∀ i : Nat,
      (print_all_items tcx args).1[i]? =
        (tcx.localItems[i]?).map fun item =>
          "There is an item \"" ++ item.debugForm ++ "\" of type \"" ++
            item.tyDisplay ++ "\"" := by
  constructor
  · simp [print_all_items]
  · intro i
    cases h : tcx.localItems[i]? <;>
      simp [print_all_items, itemLine, List.getElem?_map, h]

/-- C6: the driver adapter appends `-Zalways-encode-mir` as the final
element after all given compiler arguments before constructing the driver,
whose callback state starts with no recorded result. -/
theorem run_appends_mir_flag (compiler_args : List String)
    (plugin_args : StablePluginArgs) :
    (run compiler_args plugin_args).compiler_args =
        compiler_args ++ ["-Zalways-encode-mir"] ∧
    (run compiler_args plugin_args).compiler_args.getLast? =
        some "-Zalways-encode-mir" ∧
    (run compiler_args plugin_args).callbacks.result = none := by
  refine ⟨rfl, ?_, rfl⟩
  show (compiler_args ++ ["-Zalways-encode-mir"]).getLast? = some "-Zalways-encode-mir"
  simp

/-- C7: the item-enumeration routine returns `Continue` for every typed
context and every plugin argument list; it never returns `Stop`. -/
theorem print_all_items_continue (tcx : TyCtxt) (args : StablePluginArgs) :
    (print_all_items tcx args).2 = Compilation.Continue := rfl

/-- C8: the enumeration is deterministic: over the same sequence of local
items (whatever the plugin arguments) it produces identical output line
sequences and identical decisions. -/
theorem print_all_items_deterministic (tcx₁ tcx₂ : TyCtxt)
    (args₁ args₂ : StablePluginArgs)
    (h : tcx₁.localItems = tcx₂.localItems) :
    (print_all_items tcx₁ args₁).1 = (print_all_items tcx₂ args₂).1 ∧
    (print_all_items tcx₁ args₁).2 = (print_all_items tcx₂ args₂).2 := by
  constructor
  · simp [print_all_items, h]
  · rfl

/-- Witness for C8: two runs over the same single-item crate agree. -/
theorem print_all_items_deterministic_witness :
    (print_all_items ⟨[⟨"f", "fn() -> i32"⟩]⟩ ⟨[]⟩).1 =
        (print_all_items ⟨[⟨"f", "fn() -> i32"⟩]⟩ ⟨["--feature"]⟩).1 ∧
    (print_all_items ⟨[⟨"f", "fn() -> i32"⟩]⟩ ⟨[]⟩).2 =
        (print_all_items ⟨[⟨"f", "fn() -> i32"⟩]⟩ ⟨["--feature"]⟩).2 :=
  print_all_items_deterministic _ _ _ _ rfl

/-- C9: when several lines are prefixed with `"host: "`, the capture loop
retains the remainder of the last such line: each later match overwrites
the triple captured from any earlier matching line. -/
theorem parseTarget_last_match (stdout : List Char)
    (pre post : List (List Char)) (m : List Char)
    (hsplit : splitNl stdout = pre ++ m :: post)
    (hm : startsWith hostKey m = true)
    (hpost : ∀ p ∈ post, startsWith hostKey p = false) :
    parseTarget stdout = m.drop hostKey.length := by
  unfold parseTarget parseTargetLines
  rw [hsplit]
  exact foldl_updateTarget_append_match pre post m [] hm hpost

/-- Witness for C9: with two `"host: "` lines the later one wins. -/
theorem parseTarget_last_match_witness :
    parseTarget (("host: aaa\nhost: bbb").data) = ("bbb").data := by
  have h := parseTarget_last_match (("host: aaa\nhost: bbb").data)
    [("host: aaa").data] [] (("host: bbb").data)
    (by decide) (by decide) (by simp)
  simpa using h

/-- C10: the fatal check tests only the final captured triple: if the last
`"host: "`-prefixed line has an empty remainder, the probe panics
(returns `none`) regardless of any earlier matching line. -/
theorem probeTarget_checks_final_only (stdout : List Char)
    (pre post : List (List Char)) (m : List Char)
    (hsplit : splitNl stdout = pre ++ m :: post)
    (hm : startsWith hostKey m = true)
    (hpost : ∀ p ∈ post, startsWith hostKey p = false)
    (hempty : m.drop hostKey.length = []) :
    probeTarget stdout = none := by
  have hp : parseTarget stdout = m.drop hostKey.length := by
    unfold parseTarget parseTargetLines
    rw [hsplit]
    exact foldl_updateTarget_append_match pre post m [] hm hpost
  unfold probeTarget
  rw [hp, if_pos]
  rw [hempty]
  rfl

/-- Witness for C10: an earlier line carries a non-empty triple, yet the
probe panics because the last matching line has an empty remainder. -/
theorem probeTarget_checks_final_only_witness :
    probeTarget (("host: aaa\nhost: ").data) = none :=
  probeTarget_checks_final_only (("host: aaa\nhost: ").data)
    [("host: aaa").data] [] (("host: ").data)
    (by decide) (by decide) (by simp) (by decide)
